import Mathlib

/-!
# Domain silence administration (GoToSocial)

A shallow embedding of

* `internal/gtsmodel/domainsilence.go` (the `DomainSilence` record and `IsOrphan`), and
* `internal/processing/admin/domainsilence.go` (`createDomainSilence`,
  `updateDomainSilence`, `deleteDomainSilence`).

The three processor functions talk to collaborators whose code lives in other
packages (the database, the ULID generator, the HTML sanitizer, the admin action
runner and the API converter).  Those collaborators are fields of `Processor`,
over an arbitrary collaborator state `σ` and an arbitrary API model type `π`;
every call made to a stateful collaborator is appended to `World.calls`, so that
the order and the arguments of the calls can be stated.
-/

namespace GoToSocial

/-! ## Errors -/

/-- Go `error` values, as far as the processor distinguishes them: the two
sentinel errors of package `db`, any other error, and an error wrapping another
one (what the `%w` verb builds). -/
inductive GoError where
  | ErrNoEntries
  | ErrAlreadyExists
  | other (msg : String)
  | wrap (msg : String) (inner : GoError)
  deriving DecidableEq, Repr

/-- Go `errors.Is(e, target)`: `e` or an error in its chain of wrapped errors
equals `target`. -/
def GoError.Is (e target : GoError) : Bool :=
  match e with
  | .wrap msg inner => decide (GoError.wrap msg inner = target) || inner.Is target
  | .ErrNoEntries => decide (GoError.ErrNoEntries = target)
  | .ErrAlreadyExists => decide (GoError.ErrAlreadyExists = target)
  | .other msg => decide (GoError.other msg = target)

/-- The value of `gtserror.Newf(format + ": %w", ..., err)`: the formatted text
wrapped around `err`. -/
def Newf (msg : String) (err : GoError) : GoError :=
  .wrap msg err

/-- Modelled from the spec: `gtserror.WithCode` (package `gtserror` is not part of
the excerpt), an error together with the status code it maps to; "not-found →
404-equivalent, internal → 500-equivalent". -/
structure WithCode where
  Code : Nat
  Original : GoError
  deriving DecidableEq, Repr

/-- Modelled from the spec: `gtserror.NewErrorInternalError`, the Internal error
kind (status 500). -/
def NewErrorInternalError (original : GoError) : WithCode :=
  { Code := 500, Original := original }

/-- Modelled from the spec: `gtserror.NewErrorNotFound`, the NotFound error kind
(status 404). -/
def NewErrorNotFound (original : GoError) : WithCode :=
  { Code := 404, Original := original }

/-- A `gtserror.MultiError`: the errors a side effect collected; `nil` is `[]`. -/
abbrev MultiError := List GoError

/-! ## Data model -/

/-- The part of `gtsmodel.Account` the processor reads. -/
structure Account where
  ID : String
  deriving DecidableEq, Repr

/-- The struct `gtsmodel.DomainSilence`. Timestamps are natural numbers, `0` being
the zero `time.Time`; the pointer fields are options, `none` being `nil`. -/
structure DomainSilence where
  ID : String
  CreatedAt : Nat
  UpdatedAt : Nat
  Domain : String
  CreatedByAccountID : String
  CreatedByAccount : Option Account
  PrivateComment : String
  PublicComment : String
  Obfuscate : Option Bool
  SubscriptionID : String
  deriving DecidableEq, Repr

/-- The method `(*DomainSilence).IsOrphan`. -/
def DomainSilence.IsOrphan (d : DomainSilence) : Bool :=
  d.SubscriptionID == ""

/-- Modelled from the spec: `gtsmodel.AdminActionCategory` (declared outside the
excerpt); the only category used here is the domain one. -/
inductive AdminActionCategory where
  | AdminActionCategoryUnknown
  | AdminActionCategoryAccount
  | AdminActionCategoryDomain
  deriving DecidableEq, Repr

/-- Modelled from the spec: `gtsmodel.AdminActionType` (declared outside the
excerpt); `AdminActionSilence` is "silence-applied" and `AdminActionUnsilence` is
"silence-removed". -/
inductive AdminActionType where
  | AdminActionUnknown
  | AdminActionSilence
  | AdminActionUnsilence
  deriving DecidableEq, Repr

/-- The fields of `gtsmodel.AdminAction` that the processor sets. -/
structure AdminAction where
  ID : String
  TargetCategory : AdminActionCategory
  TargetID : String
  Type_ : AdminActionType
  AccountID : String
  deriving DecidableEq, Repr

/-! ## Collaborators and the call record -/

/-- One call to a stateful collaborator, with its arguments. -/
inductive Call where
  | GetDomainSilence (domain : String)
  | GetDomainSilenceByID (id : String)
  | PutDomainSilence (domainSilence : DomainSilence)
  | UpdateDomainSilence (domainSilence : DomainSilence) (columns : List String)
  | DeleteDomainSilence (domain : String)
  | NewULID
  | AdminActionsRun (action : AdminAction)
  | apiDomainPerm (domainSilence : DomainSilence) (countOnly : Bool)
  deriving DecidableEq, Repr

/-- Whether a call writes to the domain silence table. -/
def Call.isStoreWrite : Call → Bool
  | .PutDomainSilence _ => true
  | .UpdateDomainSilence _ _ => true
  | .DeleteDomainSilence _ => true
  | _ => false

/-- Whether a call hands an action to the admin action runner. -/
def Call.isRun : Call → Bool
  | .AdminActionsRun _ => true
  | _ => false

/-- The collaborators of the admin processor, over a collaborator state `σ` and
an API model type `π` (`apimodel.DomainPermission`).

A Go result pair `(*T, error)` of a lookup is an `Except`: either the error or
the record.  A result `error` alone is an `Option GoError`, `none` being `nil`.

The two database writes receive the record as a pointer, `*gtsmodel.DomainSilence`,
and the processor reads that record again after the call; so they return, beside
the error, the record as the database left it behind the pointer (a database
that does not write through the pointer returns its argument). The action runner
and the API converter only read what they are handed. -/
structure Processor (σ π : Type) where
  /-- The call `p.state.DB.GetDomainSilence(ctx, domain)`. -/
  GetDomainSilence : String → σ → Except GoError DomainSilence × σ
  /-- The call `p.state.DB.GetDomainSilenceByID(ctx, id)`. -/
  GetDomainSilenceByID : String → σ → Except GoError DomainSilence × σ
  /-- The call `p.state.DB.PutDomainSilence(ctx, domainSilence)`. -/
  PutDomainSilence : DomainSilence → σ → (DomainSilence × Option GoError) × σ
  /-- The call `p.state.DB.UpdateDomainSilence(ctx, domainSilence, columns...)`. -/
  UpdateDomainSilence : DomainSilence → List String → σ →
    (DomainSilence × Option GoError) × σ
  /-- The call `p.state.DB.DeleteDomainSilence(ctx, domain)`. -/
  DeleteDomainSilence : String → σ → Option GoError × σ
  /-- The call `id.NewULID()`. -/
  NewULID : σ → String × σ
  /-- The call `text.StripHTMLFromText(s)`. -/
  StripHTMLFromText : String → String
  /-- The call `p.state.AdminActions.Run(ctx, action, sideEffect)`. -/
  AdminActionsRun : AdminAction → (σ → MultiError × σ) → σ → Option WithCode × σ
  /-- The call `p.apiDomainPerm(ctx, domainSilence, countOnly)`. -/
  apiDomainPerm : DomainSilence → Bool → σ → Except WithCode π × σ

/-- The collaborator state together with the calls made so far, oldest first. -/
structure World (σ : Type) where
  state : σ
  calls : List Call

variable {σ π : Type}

/-- The database lookup by domain, recorded. -/
def Processor.dbGetDomainSilence (p : Processor σ π) (domain : String) (w : World σ) :
    Except GoError DomainSilence × World σ :=
  ((p.GetDomainSilence domain w.state).1,
    { state := (p.GetDomainSilence domain w.state).2,
      calls := w.calls ++ [Call.GetDomainSilence domain] })

/-- The database lookup by id, recorded. -/
def Processor.dbGetDomainSilenceByID (p : Processor σ π) (id : String) (w : World σ) :
    Except GoError DomainSilence × World σ :=
  ((p.GetDomainSilenceByID id w.state).1,
    { state := (p.GetDomainSilenceByID id w.state).2,
      calls := w.calls ++ [Call.GetDomainSilenceByID id] })

/-- The database insert, recorded with the record as handed over. -/
def Processor.dbPutDomainSilence (p : Processor σ π) (domainSilence : DomainSilence)
    (w : World σ) : (DomainSilence × Option GoError) × World σ :=
  ((p.PutDomainSilence domainSilence w.state).1,
    { state := (p.PutDomainSilence domainSilence w.state).2,
      calls := w.calls ++ [Call.PutDomainSilence domainSilence] })

/-- The database column update, recorded with the record as handed over. -/
def Processor.dbUpdateDomainSilence (p : Processor σ π) (domainSilence : DomainSilence)
    (columns : List String) (w : World σ) : (DomainSilence × Option GoError) × World σ :=
  ((p.UpdateDomainSilence domainSilence columns w.state).1,
    { state := (p.UpdateDomainSilence domainSilence columns w.state).2,
      calls := w.calls ++ [Call.UpdateDomainSilence domainSilence columns] })

/-- The database delete by domain, recorded. -/
def Processor.dbDeleteDomainSilence (p : Processor σ π) (domain : String) (w : World σ) :
    Option GoError × World σ :=
  ((p.DeleteDomainSilence domain w.state).1,
    { state := (p.DeleteDomainSilence domain w.state).2,
      calls := w.calls ++ [Call.DeleteDomainSilence domain] })

/-- The identifier generator, recorded. -/
def Processor.idNewULID (p : Processor σ π) (w : World σ) : String × World σ :=
  ((p.NewULID w.state).1,
    { state := (p.NewULID w.state).2, calls := w.calls ++ [Call.NewULID] })

/-- The admin action runner, recorded. -/
def Processor.adminActionsRun (p : Processor σ π) (action : AdminAction)
    (sideEffect : σ → MultiError × σ) (w : World σ) : Option WithCode × World σ :=
  ((p.AdminActionsRun action sideEffect w.state).1,
    { state := (p.AdminActionsRun action sideEffect w.state).2,
      calls := w.calls ++ [Call.AdminActionsRun action] })

/-- The API converter, recorded. -/
def Processor.apiDomainPermission (p : Processor σ π) (domainSilence : DomainSilence)
    (countOnly : Bool) (w : World σ) : Except WithCode π × World σ :=
  ((p.apiDomainPerm domainSilence countOnly w.state).1,
    { state := (p.apiDomainPerm domainSilence countOnly w.state).2,
      calls := w.calls ++ [Call.apiDomainPerm domainSilence countOnly] })

/-- Whether the lookup by domain reports not-found in collaborator state `s`. -/
def Processor.lookupNotFound (p : Processor σ π) (domain : String) (s : σ) : Bool :=
  match (p.GetDomainSilence domain s).1 with
  | .error err => err.Is GoError.ErrNoEntries
  | .ok _ => false

/-! ## The processor functions -/

/-- The side effect closure of both actions: `func(ctx) MultiError { return nil }`. -/
def noSideEffects : σ → MultiError × σ :=
  fun s => ([], s)

/-- The function `(*Processor).createDomainSilence`. The result is the triple
`(*apimodel.DomainPermission, string, gtserror.WithCode)`. -/
def createDomainSilence (p : Processor σ π) (adminAcct : Account) (domain : String)
    (obfuscate : Bool) (publicComment privateComment subscriptionID : String)
    (w : World σ) : (Option π × String × Option WithCode) × World σ :=
  -- Everything from "Run admin action" on, for the record found or created.
  let runAction := fun (domainSilence : DomainSilence) (w2 : World σ) =>
    let action : AdminAction :=
      { ID := (p.idNewULID w2).1
        TargetCategory := AdminActionCategory.AdminActionCategoryDomain
        TargetID := domainSilence.Domain
        Type_ := AdminActionType.AdminActionSilence
        AccountID := adminAcct.ID }
    match p.adminActionsRun action noSideEffects (p.idNewULID w2).2 with
    | (some errWithCode, w4) => ((none, action.ID, some errWithCode), w4)
    | (none, w4) =>
      match p.apiDomainPermission domainSilence false w4 with
      | (.error errWithCode, w5) => ((none, action.ID, some errWithCode), w5)
      | (.ok apiDomainSilence, w5) => ((some apiDomainSilence, action.ID, none), w5)
  -- Check if a silence already exists for this domain.
  match p.dbGetDomainSilence domain w with
  | (.ok domainSilence, w1) => runAction domainSilence w1
  | (.error err, w1) =>
    if err.Is GoError.ErrNoEntries = false then
      -- Something went wrong in the DB.
      ((none, "", some (NewErrorInternalError
        (Newf ("db error getting domain silence " ++ domain) err))), w1)
    else
      -- No silence exists yet, create it.
      let created : DomainSilence :=
        { ID := (p.idNewULID w1).1
          CreatedAt := 0
          UpdatedAt := 0
          Domain := domain
          CreatedByAccountID := adminAcct.ID
          CreatedByAccount := none
          PrivateComment := p.StripHTMLFromText privateComment
          PublicComment := p.StripHTMLFromText publicComment
          Obfuscate := some obfuscate
          SubscriptionID := subscriptionID }
      -- Insert the new silence into the database; `domainSilence` is what the
      -- pointer holds after the call.
      match p.dbPutDomainSilence created (p.idNewULID w1).2 with
      | ((_, some err2), w3) =>
        ((none, "", some (NewErrorInternalError
          (Newf ("db error putting domain silence " ++ domain) err2))), w3)
      | ((domainSilence, none), w3) => runAction domainSilence w3

/-- The four conditional assignments of `updateDomainSilence`: the record as
modified and the `columns` slice as appended to. -/
def applyUpdate (domainSilence : DomainSilence) (obfuscate : Option Bool)
    (publicComment privateComment subscriptionID : Option String) :
    DomainSilence × List String :=
  let columns : List String := []
  let (domainSilence, columns) :=
    match obfuscate with
    | some _ => ({ domainSilence with Obfuscate := obfuscate }, columns ++ ["obfuscate"])
    | none => (domainSilence, columns)
  let (domainSilence, columns) :=
    match publicComment with
    | some v => ({ domainSilence with PublicComment := v }, columns ++ ["public_comment"])
    | none => (domainSilence, columns)
  let (domainSilence, columns) :=
    match privateComment with
    | some v => ({ domainSilence with PrivateComment := v }, columns ++ ["private_comment"])
    | none => (domainSilence, columns)
  let (domainSilence, columns) :=
    match subscriptionID with
    | some v => ({ domainSilence with SubscriptionID := v }, columns ++ ["subscription_id"])
    | none => (domainSilence, columns)
  (domainSilence, columns)

/-- The function `(*Processor).updateDomainSilence`. The result is the pair
`(*apimodel.DomainPermission, gtserror.WithCode)`. -/
def updateDomainSilence (p : Processor σ π) (domainSilenceID : String)
    (obfuscate : Option Bool) (publicComment privateComment subscriptionID : Option String)
    (w : World σ) : (Option π × Option WithCode) × World σ :=
  match p.dbGetDomainSilenceByID domainSilenceID w with
  | (.error err, w1) =>
    if err.Is GoError.ErrNoEntries = false then
      -- Real error.
      ((none, some (NewErrorInternalError (Newf "db error getting domain silence" err))), w1)
    else
      -- There are just no entries for this ID.
      ((none, some (NewErrorNotFound
        (GoError.other ("no domain silence entry exists with ID " ++ domainSilenceID)))), w1)
  | (.ok found, w1) =>
    let modified := (applyUpdate found obfuscate publicComment privateComment subscriptionID).1
    let columns := (applyUpdate found obfuscate publicComment privateComment subscriptionID).2
    -- Update the domain silence; `domainSilence` is what the pointer holds
    -- after the call.
    match p.dbUpdateDomainSilence modified columns w1 with
    | ((_, some err), w2) =>
      ((none, some (NewErrorInternalError (Newf "db error updating domain silence" err))), w2)
    | ((domainSilence, none), w2) =>
      match p.apiDomainPermission domainSilence false w2 with
      | (.error errWithCode, w3) => ((none, some errWithCode), w3)
      | (.ok apiDomainSilence, w3) => ((some apiDomainSilence, none), w3)

/-- The function `(*Processor).deleteDomainSilence`. The result is the triple
`(*apimodel.DomainPermission, string, gtserror.WithCode)`. -/
def deleteDomainSilence (p : Processor σ π) (adminAcct : Account) (domainSilenceID : String)
    (w : World σ) : (Option π × String × Option WithCode) × World σ :=
  match p.dbGetDomainSilenceByID domainSilenceID w with
  | (.error err, w1) =>
    if err.Is GoError.ErrNoEntries = false then
      -- Real error.
      ((none, "", some (NewErrorInternalError
        (Newf "db error getting domain silence" err))), w1)
    else
      -- There are just no entries for this ID.
      ((none, "", some (NewErrorNotFound
        (GoError.other ("no domain silence entry exists with ID " ++ domainSilenceID)))), w1)
  | (.ok domainSilence, w1) =>
    -- Prepare the domain silence to return, *before* the deletion goes through.
    match p.apiDomainPermission domainSilence false w1 with
    | (.error errWithCode, w2) => ((none, "", some errWithCode), w2)
    | (.ok apiDomainSilence, w2) =>
      -- Delete the original domain silence.
      match p.dbDeleteDomainSilence domainSilence.Domain w2 with
      | (some err, w3) =>
        ((none, "", some (NewErrorInternalError
          (Newf "db error deleting domain silence" err))), w3)
      | (none, w3) =>
        -- Run admin action to process side effects of unsilence.
        let action : AdminAction :=
          { ID := (p.idNewULID w3).1
            TargetCategory := AdminActionCategory.AdminActionCategoryDomain
            TargetID := domainSilence.Domain
            Type_ := AdminActionType.AdminActionUnsilence
            AccountID := adminAcct.ID }
        match p.adminActionsRun action noSideEffects (p.idNewULID w3).2 with
        | (some errWithCode, w5) => ((none, action.ID, some errWithCode), w5)
        | (none, w5) => ((some apiDomainSilence, action.ID, none), w5)

/-! ## An in-memory instance of the collaborators -/

/-- Modelled from the spec: `apimodel.DomainPermission`, the externally visible
representation of a permission record (the API model package is outside the
excerpt). -/
structure DomainPermission where
  Domain : String
  Obfuscate : Bool
  PrivateComment : String
  PublicComment : String
  SubscriptionID : String
  CreatedBy : String
  deriving DecidableEq, Repr

/-- Modelled from the spec: the state behind the collaborators (the storage
engine, the audit trail and the identifier generator are outside the excerpt).
`silences` is the permission table, with at most one row per domain; `pending`
holds rows that a concurrent request commits between this request's lookup by
domain and its next statement; `actions` is the audit trail; the three flags
make the storage engine, the audit trail and the converter fail. -/
structure MemState where
  silences : List DomainSilence
  pending : List DomainSilence
  actions : List AdminAction
  issued : Nat
  now : Nat
  storageDown : Bool
  auditDown : Bool
  converterDown : Bool
  deriving DecidableEq, Repr

/-- Modelled from the spec: the lower-case form of an ASCII letter. -/
def lowerChar (c : Char) : Char :=
  if 65 ≤ c.toNat ∧ c.toNat ≤ 90 then Char.ofNat (c.toNat + 32) else c

/-- Modelled from the spec: the normal form of a domain name ("`domain`:
normalized domain name"), here its lower-case form. -/
def normalizeDomain (domain : String) : String :=
  String.mk (domain.data.map lowerChar)

/-- Modelled from the spec: the row that an insert of `r` stores at time `now`:
the domain normalized, absent timestamps set to the current time. -/
def normalizeRow (r : DomainSilence) (now : Nat) : DomainSilence :=
  { r with Domain := normalizeDomain r.Domain
           CreatedAt := if r.CreatedAt = 0 then now else r.CreatedAt
           UpdatedAt := if r.UpdatedAt = 0 then now else r.UpdatedAt }

/-- Modelled from the spec: `insert(record) → ok | error`, which "must fail
distinctly on unique-constraint violation" (unique id, unique domain). The
domain is normalized and absent timestamps are set to the current time, in the
stored row and in the caller's record alike: the store writes them through the
pointer it is handed. -/
def memPut (r : DomainSilence) (s : MemState) : (DomainSilence × Option GoError) × MemState :=
  if s.storageDown then ((r, some (GoError.other "connection refused")), s)
  else if s.silences.any
      (fun x => x.Domain == (normalizeRow r s.now).Domain || x.ID == r.ID) then
    ((normalizeRow r s.now, some GoError.ErrAlreadyExists), s)
  else
    ((normalizeRow r s.now, none),
      { s with silences := s.silences ++ [normalizeRow r s.now] })

/-- Modelled from the spec: the commit of the concurrent request's rows, each
through the same unique-constraint check as `memPut`. -/
def commitPending (s : MemState) : MemState :=
  { (s.pending.foldl (fun acc r => (memPut r acc).2) s) with pending := [] }

/-- Modelled from the spec: `getByNaturalKey(domain) → record | not-found-error`,
by the normal form of the domain. -/
def memGet (domain : String) (s : MemState) : Except GoError DomainSilence × MemState :=
  if s.storageDown then (.error (GoError.other "connection refused"), s)
  else
    match s.silences.find? (fun x => x.Domain == normalizeDomain domain) with
    | some r => (.ok r, commitPending s)
    | none => (.error GoError.ErrNoEntries, commitPending s)

/-- Modelled from the spec: `getById(id) → record | not-found-error`. -/
def memGetByID (id : String) (s : MemState) : Except GoError DomainSilence × MemState :=
  if s.storageDown then (.error (GoError.other "connection refused"), s)
  else
    match s.silences.find? (fun x => x.ID == id) with
    | some r => (.ok r, s)
    | none => (.error GoError.ErrNoEntries, s)

/-- Modelled from the spec: `updatePartial(record, changedFieldNames) → ok | error`,
a column-scoped write to the row with the record's id, refreshing `updatedAt`, in
the row and through the pointer in the caller's record. -/
def memUpdate (r : DomainSilence) (columns : List String) (s : MemState) :
    (DomainSilence × Option GoError) × MemState :=
  if s.storageDown then ((r, some (GoError.other "connection refused")), s)
  else
    (({ r with UpdatedAt := s.now }, none), { s with silences := s.silences.map (fun x =>
      if x.ID == r.ID then
        { x with
          UpdatedAt := s.now
          Obfuscate := if columns.contains "obfuscate" then r.Obfuscate else x.Obfuscate
          PublicComment :=
            if columns.contains "public_comment" then r.PublicComment else x.PublicComment
          PrivateComment :=
            if columns.contains "private_comment" then r.PrivateComment else x.PrivateComment
          SubscriptionID :=
            if columns.contains "subscription_id" then r.SubscriptionID else x.SubscriptionID }
      else x) })

/-- Modelled from the spec: `deleteByNaturalKey(domain) → ok | error`, by the
normal form of the domain. -/
def memDelete (domain : String) (s : MemState) : Option GoError × MemState :=
  if s.storageDown then (some (GoError.other "connection refused"), s)
  else
    (none, { s with silences :=
      s.silences.filter (fun x => !(x.Domain == normalizeDomain domain)) })

/-- Modelled from the spec: `newId() → sortable-unique-string`; the n-th identifier
is a `0` followed by n times `Z`. -/
def memNewULID (s : MemState) : String × MemState :=
  (String.mk ('0' :: List.replicate s.issued 'Z'), { s with issued := s.issued + 1 })

/-- Modelled from the spec: `stripMarkup(text) → text`; drops every tag, that is
every `<`, the matching `>` and what stands between them. The flag says whether
the scan is inside a tag. -/
def stripTags : Bool → List Char → List Char
  | _, [] => []
  | true, c :: cs => if c = '>' then stripTags false cs else stripTags true cs
  | false, c :: cs => if c = '<' then stripTags true cs else c :: stripTags false cs

/-- Modelled from the spec: the sanitizer as a function on strings. -/
def memStripHTML (text : String) : String :=
  String.mk (stripTags false text.data)

/-- Modelled from the spec: the Action Runner, `run(context, actionRecord,
sideEffect) → error`: it persists the action record first, then invokes the side
effect, and reports the side effect's errors as one failure. -/
def memRun (action : AdminAction) (sideEffect : MemState → MultiError × MemState)
    (s : MemState) : Option WithCode × MemState :=
  if s.auditDown then
    (some (NewErrorInternalError (GoError.other "db error putting admin action")), s)
  else
    match sideEffect { s with actions := s.actions ++ [action] } with
    | ([], s2) => (none, s2)
    | (e :: _, s2) => (some (NewErrorInternalError (GoError.wrap "side effects failed" e)), s2)

/-- Modelled from the spec: `toExternal(record, countOnly) → externalRepresentation
| error`; it exposes no surrogate id and masks the domain of an obfuscated
record. -/
def memApi (r : DomainSilence) (_countOnly : Bool) (s : MemState) :
    Except WithCode DomainPermission × MemState :=
  if s.converterDown then
    (.error (NewErrorInternalError (GoError.other "error converting domain permission")), s)
  else
    (.ok { Domain := if r.Obfuscate = some true then String.mk (r.Domain.data.map (fun _ => '*'))
                     else r.Domain
           Obfuscate := r.Obfuscate = some true
           PrivateComment := r.PrivateComment
           PublicComment := r.PublicComment
           SubscriptionID := r.SubscriptionID
           CreatedBy := r.CreatedByAccountID }, s)

/-- Modelled from the spec: the processor over the in-memory collaborators. -/
def memProcessor : Processor MemState DomainPermission where
  GetDomainSilence := memGet
  GetDomainSilenceByID := memGetByID
  PutDomainSilence := memPut
  UpdateDomainSilence := memUpdate
  DeleteDomainSilence := memDelete
  NewULID := memNewULID
  StripHTMLFromText := memStripHTML
  AdminActionsRun := memRun
  apiDomainPerm := memApi

/-- An administrator account. -/
def admin1 : Account :=
  { ID := "01ADMIN" }

/-- A stored silence of `bad.example`, created by another administrator. -/
def silence1 : DomainSilence :=
  { ID := "01SILENCE", CreatedAt := 5, UpdatedAt := 5, Domain := "bad.example",
    CreatedByAccountID := "01OTHER", CreatedByAccount := none, PrivateComment := "secret",
    PublicComment := "spam", Obfuscate := some true, SubscriptionID := "01SUB" }

/-- A state with an empty permission table. -/
def emptyState : MemState :=
  { silences := [], pending := [], actions := [], issued := 0, now := 7,
    storageDown := false, auditDown := false, converterDown := false }

/-- A state whose permission table holds `silence1`. -/
def state1 : MemState :=
  { emptyState with silences := [silence1] }

/-- A state whose permission table holds `silence1` and whose audit trail is
unavailable, so that the action runner reports an error. -/
def stateAuditDown : MemState :=
  { state1 with auditDown := true }

/-- A state with an empty permission table in which a concurrent request is about
to commit `silence1`, a silence of `bad.example`. -/
def stateRace : MemState :=
  { emptyState with pending := [silence1] }

/-- A world that has seen no call yet. -/
def World.start (s : σ) : World σ :=
  { state := s, calls := [] }

/-! ## Theorems -/

/-- C1: when the lookup by domain returns an existing record `r`, whatever the
other arguments are, `createDomainSilence` makes exactly the calls lookup, new
identifier, action run and (after a successful run) projection of `r`; none of
them writes to the permission table, the record projected is `r` itself, and
when run and projection succeed the result is the projection of `r` with the
action's identifier. -/
theorem create_existing_record_reused (p : Processor σ π) (adminAcct : Account)
    (domain : String) (obfuscate : Bool) (publicComment privateComment subscriptionID : String)
    (w : World σ) (r : DomainSilence) (s1 : σ)
    (hget : p.GetDomainSilence domain w.state = (.ok r, s1)) :
    (createDomainSilence p adminAcct domain obfuscate publicComment privateComment
        subscriptionID w).2.calls
      = w.calls ++ [Call.GetDomainSilence domain, Call.NewULID,
          Call.AdminActionsRun
            { ID := (p.NewULID s1).1
              TargetCategory := AdminActionCategory.AdminActionCategoryDomain
              TargetID := r.Domain
              Type_ := AdminActionType.AdminActionSilence
              AccountID := adminAcct.ID }]
        ++ (match (p.AdminActionsRun
            { ID := (p.NewULID s1).1
              TargetCategory := AdminActionCategory.AdminActionCategoryDomain
              TargetID := r.Domain
              Type_ := AdminActionType.AdminActionSilence
              AccountID := adminAcct.ID } noSideEffects (p.NewULID s1).2).1 with
            | none => [Call.apiDomainPerm r false]
            | some _ => [])
    ∧ (∀ c ∈ ((createDomainSilence p adminAcct domain obfuscate publicComment privateComment
        subscriptionID w).2.calls.drop w.calls.length), c.isStoreWrite = false)
    ∧ (∀ (s4 s5 : σ) (api : π),
        p.AdminActionsRun
            { ID := (p.NewULID s1).1
              TargetCategory := AdminActionCategory.AdminActionCategoryDomain
              TargetID := r.Domain
              Type_ := AdminActionType.AdminActionSilence
              AccountID := adminAcct.ID } noSideEffects (p.NewULID s1).2 = (none, s4) →
        p.apiDomainPerm r false s4 = (.ok api, s5) →
        createDomainSilence p adminAcct domain obfuscate publicComment privateComment
            subscriptionID w
          = ((some api, (p.NewULID s1).1, none),
             { state := s5
               calls := w.calls ++ [Call.GetDomainSilence domain, Call.NewULID,
                 Call.AdminActionsRun
                   { ID := (p.NewULID s1).1
                     TargetCategory := AdminActionCategory.AdminActionCategoryDomain
                     TargetID := r.Domain
                     Type_ := AdminActionType.AdminActionSilence
                     AccountID := adminAcct.ID },
                 Call.apiDomainPerm r false] })) := by
  refine ⟨?_, ?_, ?_⟩
  · simp only [createDomainSilence, Processor.dbGetDomainSilence, Processor.idNewULID,
      Processor.adminActionsRun, Processor.apiDomainPermission, hget]
    rcases hrun : p.AdminActionsRun
            { ID := (p.NewULID s1).1
              TargetCategory := AdminActionCategory.AdminActionCategoryDomain
              TargetID := r.Domain
              Type_ := AdminActionType.AdminActionSilence
              AccountID := adminAcct.ID } noSideEffects (p.NewULID s1).2 with ⟨_ | e, s4⟩
    · rcases hapi : p.apiDomainPerm r false s4 with ⟨_ | api, s5⟩ <;> simp [hapi]
    · simp
  · simp only [createDomainSilence, Processor.dbGetDomainSilence, Processor.idNewULID,
      Processor.adminActionsRun, Processor.apiDomainPermission, hget]
    rcases hrun : p.AdminActionsRun
            { ID := (p.NewULID s1).1
              TargetCategory := AdminActionCategory.AdminActionCategoryDomain
              TargetID := r.Domain
              Type_ := AdminActionType.AdminActionSilence
              AccountID := adminAcct.ID } noSideEffects (p.NewULID s1).2 with ⟨_ | e, s4⟩
    · rcases hapi : p.apiDomainPerm r false s4 with ⟨_ | api, s5⟩ <;>
        simp [hapi, Call.isStoreWrite]
    · simp [Call.isStoreWrite]
  · intro s4 s5 api hrun hapi
    simp [createDomainSilence, Processor.dbGetDomainSilence, Processor.idNewULID,
      Processor.adminActionsRun, Processor.apiDomainPermission, hget, hrun, hapi]

/-- Witness of C1 on the in-memory collaborators: `bad.example` is already
silenced by `silence1`; the new call's arguments are ignored, nothing is written
and the projection of `silence1` is returned. -/
theorem create_existing_record_reused_witness :
    memProcessor.GetDomainSilence "bad.example" (World.start state1).state
        = (.ok silence1, state1)
    ∧ (createDomainSilence memProcessor admin1 "bad.example" false "other" "note" ""
        (World.start state1)).1
        = (some { Domain := "***********", Obfuscate := true, PrivateComment := "secret",
                  PublicComment := "spam", SubscriptionID := "01SUB", CreatedBy := "01OTHER" },
           "0", none)
    ∧ (createDomainSilence memProcessor admin1 "bad.example" false "other" "note" ""
        (World.start state1)).2.state.silences = [silence1] :=
  ⟨rfl,
   by
    rw [(create_existing_record_reused memProcessor admin1 "bad.example" false "other"
      "note" "" (World.start state1) silence1 state1 rfl).2.2 _ _ _ rfl rfl]
    decide,
   by decide⟩

/-- C2, counterexample: a create of `BAD.Example` on an empty table, with insert,
action run and projection succeeding. The store normalizes the domain and sets
the timestamps behind the pointer it is handed; the action's target is the
record's domain after the insert, `bad.example`, not the domain given, and the
record projected is the record as the store left it, not the record as built. -/
theorem create_action_targets_stored_domain :
    (createDomainSilence memProcessor admin1 "BAD.Example" false "spam" "" ""
        (World.start emptyState)).2.calls
      = [Call.GetDomainSilence "BAD.Example", Call.NewULID,
         Call.PutDomainSilence
           { ID := "0", CreatedAt := 0, UpdatedAt := 0, Domain := "BAD.Example",
             CreatedByAccountID := "01ADMIN", CreatedByAccount := none, PrivateComment := "",
             PublicComment := "spam", Obfuscate := some false, SubscriptionID := "" },
         Call.NewULID,
         Call.AdminActionsRun
           { ID := "0Z", TargetCategory := AdminActionCategory.AdminActionCategoryDomain,
             TargetID := "bad.example", Type_ := AdminActionType.AdminActionSilence,
             AccountID := "01ADMIN" },
         Call.apiDomainPerm
           { ID := "0", CreatedAt := 7, UpdatedAt := 7, Domain := "bad.example",
             CreatedByAccountID := "01ADMIN", CreatedByAccount := none, PrivateComment := "",
             PublicComment := "spam", Obfuscate := some false, SubscriptionID := "" } false]
    ∧ (createDomainSilence memProcessor admin1 "BAD.Example" false "spam" "" ""
        (World.start emptyState)).1.2.2 = none
    ∧ ¬ (∃ id, Call.AdminActionsRun
          { ID := id, TargetCategory := AdminActionCategory.AdminActionCategoryDomain,
            TargetID := "BAD.Example", Type_ := AdminActionType.AdminActionSilence,
            AccountID := "01ADMIN" }
        ∈ (createDomainSilence memProcessor admin1 "BAD.Example" false "spam" "" ""
            (World.start emptyState)).2.calls) := by
  have hcalls : (createDomainSilence memProcessor admin1 "BAD.Example" false "spam" "" ""
        (World.start emptyState)).2.calls
      = [Call.GetDomainSilence "BAD.Example", Call.NewULID,
         Call.PutDomainSilence
           { ID := "0", CreatedAt := 0, UpdatedAt := 0, Domain := "BAD.Example",
             CreatedByAccountID := "01ADMIN", CreatedByAccount := none, PrivateComment := "",
             PublicComment := "spam", Obfuscate := some false, SubscriptionID := "" },
         Call.NewULID,
         Call.AdminActionsRun
           { ID := "0Z", TargetCategory := AdminActionCategory.AdminActionCategoryDomain,
             TargetID := "bad.example", Type_ := AdminActionType.AdminActionSilence,
             AccountID := "01ADMIN" },
         Call.apiDomainPerm
           { ID := "0", CreatedAt := 7, UpdatedAt := 7, Domain := "bad.example",
             CreatedByAccountID := "01ADMIN", CreatedByAccount := none, PrivateComment := "",
             PublicComment := "spam", Obfuscate := some false, SubscriptionID := "" } false] := by
    decide
  refine ⟨hcalls, by decide, ?_⟩
  rintro ⟨id, hmem⟩
  rw [hcalls] at hmem
  simp at hmem

/-- C2, amended: when the lookup by domain reports not-found and insert, action
run and projection succeed, `createDomainSilence` makes exactly the calls lookup,
new identifier, insert, new identifier, action run, projection: one insert, of the
record with the fresh id, the given domain, the administrator's id, both comments
sanitized, the flag present and the subscription id as given; one action of type
silence, by the administrator, targeting the domain that the record holds after
the insert; and it returns the projection of the record as the store left it,
with the action's identifier. -/
theorem create_new_record_inserted (p : Processor σ π) (adminAcct : Account)
    (domain : String) (obfuscate : Bool) (publicComment privateComment subscriptionID : String)
    (w : World σ) (err : GoError) (stored : DomainSilence) (s1 s3 s4 s5 : σ) (api : π)
    (hget : p.GetDomainSilence domain w.state = (.error err, s1))
    (hnotfound : err.Is GoError.ErrNoEntries = true)
    (hput : p.PutDomainSilence
        { ID := (p.NewULID s1).1, CreatedAt := 0, UpdatedAt := 0, Domain := domain,
          CreatedByAccountID := adminAcct.ID, CreatedByAccount := none,
          PrivateComment := p.StripHTMLFromText privateComment,
          PublicComment := p.StripHTMLFromText publicComment,
          Obfuscate := some obfuscate, SubscriptionID := subscriptionID }
        (p.NewULID s1).2 = ((stored, none), s3))
    (hrun : p.AdminActionsRun
        { ID := (p.NewULID s3).1
          TargetCategory := AdminActionCategory.AdminActionCategoryDomain
          TargetID := stored.Domain
          Type_ := AdminActionType.AdminActionSilence
          AccountID := adminAcct.ID } noSideEffects (p.NewULID s3).2 = (none, s4))
    (hapi : p.apiDomainPerm stored false s4 = (.ok api, s5)) :
    createDomainSilence p adminAcct domain obfuscate publicComment privateComment
        subscriptionID w
      = ((some api, (p.NewULID s3).1, none),
         { state := s5
           calls := w.calls ++ [Call.GetDomainSilence domain, Call.NewULID,
             Call.PutDomainSilence
               { ID := (p.NewULID s1).1, CreatedAt := 0, UpdatedAt := 0, Domain := domain,
                 CreatedByAccountID := adminAcct.ID, CreatedByAccount := none,
                 PrivateComment := p.StripHTMLFromText privateComment,
                 PublicComment := p.StripHTMLFromText publicComment,
                 Obfuscate := some obfuscate, SubscriptionID := subscriptionID },
             Call.NewULID,
             Call.AdminActionsRun
               { ID := (p.NewULID s3).1
                 TargetCategory := AdminActionCategory.AdminActionCategoryDomain
                 TargetID := stored.Domain
                 Type_ := AdminActionType.AdminActionSilence
                 AccountID := adminAcct.ID },
             Call.apiDomainPerm stored false] }) := by
  simp [createDomainSilence, Processor.dbGetDomainSilence, Processor.idNewULID,
    Processor.dbPutDomainSilence, Processor.adminActionsRun, Processor.apiDomainPermission,
    hget, hnotfound, hput, hrun, hapi]

/-- Witness of the amended C2 on the in-memory collaborators: the scenario of the
specification, `create("bad.example", false, "spam", "", "")` on an empty table. -/
theorem create_new_record_inserted_witness :
    (createDomainSilence memProcessor admin1 "bad.example" false "spam" "" ""
        (World.start emptyState)).1
      = (some { Domain := "bad.example", Obfuscate := false, PrivateComment := "",
                PublicComment := "spam", SubscriptionID := "", CreatedBy := "01ADMIN" },
         "0Z", none)
    ∧ (createDomainSilence memProcessor admin1 "bad.example" false "spam" "" ""
        (World.start emptyState)).2.state.silences
      = [{ ID := "0", CreatedAt := 7, UpdatedAt := 7, Domain := "bad.example",
           CreatedByAccountID := "01ADMIN", CreatedByAccount := none, PrivateComment := "",
           PublicComment := "spam", Obfuscate := some false, SubscriptionID := "" }] := by
  rw [create_new_record_inserted memProcessor admin1 "bad.example" false "spam" "" ""
    (World.start emptyState) GoError.ErrNoEntries _ _ _ _ _ _ rfl rfl rfl rfl rfl]
  exact ⟨by decide, by decide⟩

/-- C3: for an existing record `r` and every combination of present and absent
parameters, `updateDomainSilence` hands `UpdateDomainSilence` the record `r` with
exactly the fields of the present parameters overwritten by them (id, domain,
timestamps, creator and the fields of absent parameters are those of `r`), and a
column list that holds the column name of each present parameter once and nothing
else; that is the only write, and after it the only further call is the
projection of the record as the database left it. -/
theorem update_overwrites_present_fields_only (p : Processor σ π) (domainSilenceID : String)
    (obfuscate : Option Bool) (publicComment privateComment subscriptionID : Option String)
    (w : World σ) (r : DomainSilence) (s1 : σ)
    (hget : p.GetDomainSilenceByID domainSilenceID w.state = (.ok r, s1)) :
    ∃ (r2 : DomainSilence) (columns : List String),
      (updateDomainSilence p domainSilenceID obfuscate publicComment privateComment
          subscriptionID w).2.calls
        = w.calls ++ [Call.GetDomainSilenceByID domainSilenceID,
            Call.UpdateDomainSilence r2 columns]
          ++ (match (p.UpdateDomainSilence r2 columns s1).1.2 with
              | none => [Call.apiDomainPerm (p.UpdateDomainSilence r2 columns s1).1.1 false]
              | some _ => [])
      ∧ r2 = { r with
                Obfuscate := (match obfuscate with
                  | some b => some b
                  | none => r.Obfuscate)
                PublicComment := publicComment.getD r.PublicComment
                PrivateComment := privateComment.getD r.PrivateComment
                SubscriptionID := subscriptionID.getD r.SubscriptionID }
      ∧ (r2.ID = r.ID ∧ r2.Domain = r.Domain ∧ r2.CreatedAt = r.CreatedAt
          ∧ r2.UpdatedAt = r.UpdatedAt ∧ r2.CreatedByAccountID = r.CreatedByAccountID
          ∧ r2.CreatedByAccount = r.CreatedByAccount)
      ∧ columns = (if obfuscate.isSome then ["obfuscate"] else [])
          ++ (if publicComment.isSome then ["public_comment"] else [])
          ++ (if privateComment.isSome then ["private_comment"] else [])
          ++ (if subscriptionID.isSome then ["subscription_id"] else [])
      ∧ columns.Nodup
      ∧ (∀ c, c ∈ columns ↔
          (c = "obfuscate" ∧ obfuscate.isSome) ∨ (c = "public_comment" ∧ publicComment.isSome)
          ∨ (c = "private_comment" ∧ privateComment.isSome)
          ∨ (c = "subscription_id" ∧ subscriptionID.isSome)) := by
  refine ⟨(applyUpdate r obfuscate publicComment privateComment subscriptionID).1,
    (applyUpdate r obfuscate publicComment privateComment subscriptionID).2, ?_, ?_, ?_, ?_, ?_, ?_⟩
  · simp only [updateDomainSilence, Processor.dbGetDomainSilenceByID,
      Processor.dbUpdateDomainSilence, Processor.apiDomainPermission, hget]
    rcases hupd : p.UpdateDomainSilence
        (applyUpdate r obfuscate publicComment privateComment subscriptionID).1
        (applyUpdate r obfuscate publicComment privateComment subscriptionID).2 s1
      with ⟨⟨left, _ | e⟩, s2⟩
    · rcases hapi : p.apiDomainPerm left false s2 with ⟨_ | api, s3⟩ <;> simp [hapi]
    · simp
  · cases obfuscate <;> cases publicComment <;> cases privateComment <;>
      cases subscriptionID <;> simp [applyUpdate]
  · cases obfuscate <;> cases publicComment <;> cases privateComment <;>
      cases subscriptionID <;> simp [applyUpdate]
  · cases obfuscate <;> cases publicComment <;> cases privateComment <;>
      cases subscriptionID <;> simp [applyUpdate]
  · cases obfuscate <;> cases publicComment <;> cases privateComment <;>
      cases subscriptionID <;> simp [applyUpdate]
  · intro c
    cases obfuscate <;> cases publicComment <;> cases privateComment <;>
      cases subscriptionID <;> simp [applyUpdate]

/-- Witness of C3 on the in-memory collaborators: the scenario of the
specification, an update of the public comment alone on a record whose private
comment is "secret". -/
theorem update_overwrites_present_fields_only_witness :
    memProcessor.GetDomainSilenceByID "01SILENCE" (World.start state1).state
        = (.ok silence1, state1)
    ∧ ∃ (r2 : DomainSilence) (columns : List String),
        Call.UpdateDomainSilence r2 columns ∈
          (updateDomainSilence memProcessor "01SILENCE" none (some "updated") none none
            (World.start state1)).2.calls
        ∧ r2.PublicComment = "updated" ∧ r2.PrivateComment = "secret"
        ∧ columns = ["public_comment"] := by
  refine ⟨rfl, ?_⟩
  obtain ⟨r2, columns, hcalls, hr2, -, hcols, -, -⟩ :=
    update_overwrites_present_fields_only memProcessor "01SILENCE" none (some "updated")
      none none (World.start state1) silence1 state1 rfl
  refine ⟨r2, columns, ?_, ?_, ?_, ?_⟩
  · rw [hcalls]
    simp
  · rw [hr2]
    rfl
  · rw [hr2]
    rfl
  · rw [hcols]
    rfl

/-- C4, counterexample: lookup, projection and deletion of `silence1` succeed and
the action runner reports an error; `deleteDomainSilence` returns that error and
the action identifier, but no projection. -/
theorem delete_runner_error_returns_no_projection :
    (memProcessor.dbGetDomainSilenceByID "01SILENCE" (World.start stateAuditDown)).1
        = .ok silence1
    ∧ (memProcessor.apiDomainPerm silence1 false stateAuditDown).1
        = .ok { Domain := "***********", Obfuscate := true, PrivateComment := "secret",
                PublicComment := "spam", SubscriptionID := "01SUB", CreatedBy := "01OTHER" }
    ∧ (memProcessor.DeleteDomainSilence "bad.example" stateAuditDown).1 = none
    ∧ (deleteDomainSilence memProcessor admin1 "01SILENCE" (World.start stateAuditDown)).2.calls
        = [Call.GetDomainSilenceByID "01SILENCE", Call.apiDomainPerm silence1 false,
           Call.DeleteDomainSilence "bad.example", Call.NewULID,
           Call.AdminActionsRun
             { ID := "0", TargetCategory := AdminActionCategory.AdminActionCategoryDomain,
               TargetID := "bad.example", Type_ := AdminActionType.AdminActionUnsilence,
               AccountID := "01ADMIN" }]
    ∧ (deleteDomainSilence memProcessor admin1 "01SILENCE" (World.start stateAuditDown)).1
        = (none, "0",
           some (NewErrorInternalError (GoError.other "db error putting admin action")))
    ∧ (deleteDomainSilence memProcessor admin1 "01SILENCE" (World.start stateAuditDown)).1.1
        ≠ some { Domain := "***********", Obfuscate := true, PrivateComment := "secret",
                 PublicComment := "spam", SubscriptionID := "01SUB", CreatedBy := "01OTHER" } := by
  refine ⟨rfl, rfl, rfl, ?_, ?_, ?_⟩ <;> decide

/-- C4, amended: when lookup, projection and deletion succeed, `deleteDomainSilence`
returns the action identifier in both cases; with it the pre-deletion projection
and no error when the action runner succeeds, and the runner's error and no
projection when the runner reports an error. -/
theorem delete_result_follows_runner (p : Processor σ π) (adminAcct : Account)
    (domainSilenceID : String) (w : World σ) (r : DomainSilence) (s1 s2 s3 : σ) (api : π)
    (hget : p.GetDomainSilenceByID domainSilenceID w.state = (.ok r, s1))
    (hapi : p.apiDomainPerm r false s1 = (.ok api, s2))
    (hdel : p.DeleteDomainSilence r.Domain s2 = (none, s3)) :
    (deleteDomainSilence p adminAcct domainSilenceID w).1
      = (match (p.AdminActionsRun
            { ID := (p.NewULID s3).1
              TargetCategory := AdminActionCategory.AdminActionCategoryDomain
              TargetID := r.Domain
              Type_ := AdminActionType.AdminActionUnsilence
              AccountID := adminAcct.ID } noSideEffects (p.NewULID s3).2).1 with
          | none => (some api, (p.NewULID s3).1, none)
          | some errWithCode => (none, (p.NewULID s3).1, some errWithCode)) := by
  simp only [deleteDomainSilence, Processor.dbGetDomainSilenceByID,
    Processor.apiDomainPermission, Processor.dbDeleteDomainSilence, Processor.idNewULID,
    Processor.adminActionsRun, hget, hapi, hdel]
  rcases hrun : p.AdminActionsRun
            { ID := (p.NewULID s3).1
              TargetCategory := AdminActionCategory.AdminActionCategoryDomain
              TargetID := r.Domain
              Type_ := AdminActionType.AdminActionUnsilence
              AccountID := adminAcct.ID } noSideEffects (p.NewULID s3).2 with ⟨_ | e, s4⟩ <;> simp

/-- Witness of the amended C4 on the in-memory collaborators, with a working
audit trail: the pre-deletion projection of `silence1` is returned. -/
theorem delete_result_follows_runner_witness :
    memProcessor.GetDomainSilenceByID "01SILENCE" (World.start state1).state
        = (.ok silence1, state1)
    ∧ (deleteDomainSilence memProcessor admin1 "01SILENCE" (World.start state1)).1
        = (some { Domain := "***********", Obfuscate := true, PrivateComment := "secret",
                  PublicComment := "spam", SubscriptionID := "01SUB", CreatedBy := "01OTHER" },
           "0", none) := by
  refine ⟨rfl, ?_⟩
  rw [delete_result_follows_runner memProcessor admin1 "01SILENCE" (World.start state1)
    silence1 _ _ _ _ rfl rfl rfl]
  decide

/-- C5, the failing input: an update of `silence1` with the public comment
`<b>updated</b>`. The sanitizer would turn it into `updated`, as it does on the
create path, but `updateDomainSilence` hands the database the comment as
supplied, and that is what the table then holds. -/
theorem update_stores_comment_unsanitized :
    memProcessor.StripHTMLFromText "<b>updated</b>" = "updated"
    ∧ (updateDomainSilence memProcessor "01SILENCE" none (some "<b>updated</b>") none none
        (World.start state1)).2.calls
        = [Call.GetDomainSilenceByID "01SILENCE",
           Call.UpdateDomainSilence { silence1 with PublicComment := "<b>updated</b>" }
             ["public_comment"],
           Call.apiDomainPerm
             { silence1 with PublicComment := "<b>updated</b>", UpdatedAt := 7 } false]
    ∧ (updateDomainSilence memProcessor "01SILENCE" none (some "<b>updated</b>") none none
        (World.start state1)).2.state.silences.map (fun x => x.PublicComment)
        = ["<b>updated</b>"]
    ∧ (createDomainSilence memProcessor admin1 "bad.example" false "<b>updated</b>" "" ""
        (World.start emptyState)).2.state.silences.map (fun x => x.PublicComment)
        = ["updated"] := by
  refine ⟨?_, ?_, ?_, ?_⟩ <;> decide

/-- C6: when the lookup by id fails, `updateDomainSilence` and
`deleteDomainSilence` make no call besides the lookup (no write, no delete, no
action run) and return no projection; `deleteDomainSilence` returns the empty
action identifier; the error is NotFound when the lookup reported not-found, and
Internal for every other lookup failure. -/
theorem update_delete_lookup_failure (p : Processor σ π) (adminAcct : Account)
    (domainSilenceID : String) (obfuscate : Option Bool)
    (publicComment privateComment subscriptionID : Option String)
    (w : World σ) (err : GoError) (s1 : σ)
    (hget : p.GetDomainSilenceByID domainSilenceID w.state = (.error err, s1)) :
    updateDomainSilence p domainSilenceID obfuscate publicComment privateComment
        subscriptionID w
      = ((none, some (if err.Is GoError.ErrNoEntries = true then
            NewErrorNotFound
              (GoError.other ("no domain silence entry exists with ID " ++ domainSilenceID))
          else NewErrorInternalError (Newf "db error getting domain silence" err))),
         { state := s1, calls := w.calls ++ [Call.GetDomainSilenceByID domainSilenceID] })
    ∧ deleteDomainSilence p adminAcct domainSilenceID w
      = ((none, "", some (if err.Is GoError.ErrNoEntries = true then
            NewErrorNotFound
              (GoError.other ("no domain silence entry exists with ID " ++ domainSilenceID))
          else NewErrorInternalError (Newf "db error getting domain silence" err))),
         { state := s1, calls := w.calls ++ [Call.GetDomainSilenceByID domainSilenceID] })
    ∧ (∀ original, (NewErrorNotFound original).Code = 404
        ∧ (NewErrorInternalError original).Code = 500) := by
  refine ⟨?_, ?_, fun _ => ⟨rfl, rfl⟩⟩
  · cases hnf : err.Is GoError.ErrNoEntries <;>
      simp [updateDomainSilence, Processor.dbGetDomainSilenceByID, hget, hnf]
  · cases hnf : err.Is GoError.ErrNoEntries <;>
      simp [deleteDomainSilence, Processor.dbGetDomainSilenceByID, hget, hnf]

/-- Witness of C6 on the in-memory collaborators: no record has the id `01NONE`
in `state1`, and both functions answer NotFound and leave the state as it was. -/
theorem update_delete_lookup_failure_witness :
    memProcessor.GetDomainSilenceByID "01NONE" (World.start state1).state
        = (.error GoError.ErrNoEntries, state1)
    ∧ (updateDomainSilence memProcessor "01NONE" (some true) none none none
        (World.start state1)).1
        = (none, some (NewErrorNotFound
            (GoError.other "no domain silence entry exists with ID 01NONE")))
    ∧ (deleteDomainSilence memProcessor admin1 "01NONE" (World.start state1)).1
        = (none, "", some (NewErrorNotFound
            (GoError.other "no domain silence entry exists with ID 01NONE")))
    ∧ (deleteDomainSilence memProcessor admin1 "01NONE" (World.start state1)).2.state
        = state1 := by
  have h := update_delete_lookup_failure memProcessor admin1 "01NONE" (some true) none none
    none (World.start state1) GoError.ErrNoEntries state1 rfl
  refine ⟨rfl, ?_, ?_, ?_⟩
  · rw [h.1]
    decide
  · rw [h.2.1]
    decide
  · rw [h.2.1]

/-- C7, counterexample: the lookup of `bad.example` reports not-found, a
concurrent request then stores a record for that domain, and the insert fails on
the unique constraint. `createDomainSilence` does not read the record again: the
insert is its last call, and it returns an Internal error and no projection. -/
theorem create_conflict_surfaces_internal_error :
    (memProcessor.GetDomainSilence "bad.example" stateRace).1 = .error GoError.ErrNoEntries
    ∧ (memProcessor.GetDomainSilence "bad.example" stateRace).2.silences = [silence1]
    ∧ (createDomainSilence memProcessor admin1 "bad.example" false "spam" "" ""
        (World.start stateRace)).2.calls
        = [Call.GetDomainSilence "bad.example", Call.NewULID,
           Call.PutDomainSilence
             { ID := "0", CreatedAt := 0, UpdatedAt := 0, Domain := "bad.example",
               CreatedByAccountID := "01ADMIN", CreatedByAccount := none, PrivateComment := "",
               PublicComment := "spam", Obfuscate := some false, SubscriptionID := "" }]
    ∧ (createDomainSilence memProcessor admin1 "bad.example" false "spam" "" ""
        (World.start stateRace)).1
        = (none, "", some (NewErrorInternalError
            (GoError.wrap "db error putting domain silence bad.example"
              GoError.ErrAlreadyExists)))
    ∧ (createDomainSilence memProcessor admin1 "bad.example" false "spam" "" ""
        (World.start stateRace)).2.state.silences = [silence1] := by
  refine ⟨rfl, ?_, ?_, ?_, ?_⟩ <;> decide

/-- C7, amended: when the lookup by domain reports not-found and the insert then
fails, with a unique-constraint violation or with any other error,
`createDomainSilence` makes no further call (no second lookup, no action run, no
projection) and returns an Internal error wrapping the insert's error, with no
projection and the empty action identifier. -/
theorem create_insert_failure_not_reconciled (p : Processor σ π) (adminAcct : Account)
    (domain : String) (obfuscate : Bool) (publicComment privateComment subscriptionID : String)
    (w : World σ) (err err2 : GoError) (left : DomainSilence) (s1 s3 : σ)
    (hget : p.GetDomainSilence domain w.state = (.error err, s1))
    (hnotfound : err.Is GoError.ErrNoEntries = true)
    (hput : p.PutDomainSilence
        { ID := (p.NewULID s1).1, CreatedAt := 0, UpdatedAt := 0, Domain := domain,
          CreatedByAccountID := adminAcct.ID, CreatedByAccount := none,
          PrivateComment := p.StripHTMLFromText privateComment,
          PublicComment := p.StripHTMLFromText publicComment,
          Obfuscate := some obfuscate, SubscriptionID := subscriptionID }
        (p.NewULID s1).2 = ((left, some err2), s3)) :
    createDomainSilence p adminAcct domain obfuscate publicComment privateComment
        subscriptionID w
      = ((none, "", some (NewErrorInternalError
            (Newf ("db error putting domain silence " ++ domain) err2))),
         { state := s3
           calls := w.calls ++ [Call.GetDomainSilence domain, Call.NewULID,
             Call.PutDomainSilence
               { ID := (p.NewULID s1).1, CreatedAt := 0, UpdatedAt := 0, Domain := domain,
                 CreatedByAccountID := adminAcct.ID, CreatedByAccount := none,
                 PrivateComment := p.StripHTMLFromText privateComment,
                 PublicComment := p.StripHTMLFromText publicComment,
                 Obfuscate := some obfuscate, SubscriptionID := subscriptionID }] }) := by
  simp [createDomainSilence, Processor.dbGetDomainSilence, Processor.idNewULID,
    Processor.dbPutDomainSilence, hget, hnotfound, hput]

/-- Witness of the amended C7 on the in-memory collaborators, in the state with
the concurrent request. -/
theorem create_insert_failure_not_reconciled_witness :
    memProcessor.GetDomainSilence "bad.example" (World.start stateRace).state
        = (.error GoError.ErrNoEntries, commitPending stateRace)
    ∧ (createDomainSilence memProcessor admin1 "bad.example" false "spam" "" ""
        (World.start stateRace)).1
        = (none, "", some (NewErrorInternalError
            (GoError.wrap "db error putting domain silence bad.example"
              GoError.ErrAlreadyExists))) := by
  refine ⟨rfl, ?_⟩
  rw [create_insert_failure_not_reconciled memProcessor admin1 "bad.example" false "spam" "" ""
    (World.start stateRace) GoError.ErrNoEntries GoError.ErrAlreadyExists _ _ _ rfl rfl rfl]
  decide

/-- In the in-memory store a successful delete by domain leaves no row of that
domain. -/
theorem memDelete_lookupNotFound (d : String) (s : MemState)
    (h : (memProcessor.DeleteDomainSilence d s).1 = none) :
    memProcessor.lookupNotFound d (memProcessor.DeleteDomainSilence d s).2 = true := by
  cases hdown : s.storageDown
  · have hfind : List.find? (fun x => x.Domain == normalizeDomain d)
        (List.filter (fun x => !(x.Domain == normalizeDomain d)) s.silences) = none := by
      rw [List.find?_eq_none]
      intro x hx
      simp only [List.mem_filter] at hx
      simpa using hx.2
    simp [Processor.lookupNotFound, memProcessor, memDelete, memGet, hdown, hfind, GoError.Is]
  · simp [memProcessor, memDelete, hdown] at h

/-- In the in-memory model the identifier generator does not touch the table. -/
theorem memNewULID_lookupNotFound (d : String) (s : MemState)
    (h : memProcessor.lookupNotFound d s = true) :
    memProcessor.lookupNotFound d (memProcessor.NewULID s).2 = true := by
  cases hdown : s.storageDown <;>
    cases hfind : List.find? (fun x => x.Domain == normalizeDomain d) s.silences <;>
    simp [Processor.lookupNotFound, memProcessor, memGet, memNewULID, hdown, hfind,
      GoError.Is] at h ⊢

/-- In the in-memory model the action runner, given the empty side effect, does
not touch the table. -/
theorem memRun_lookupNotFound (d : String) (a : AdminAction) (s : MemState)
    (h : memProcessor.lookupNotFound d s = true) :
    memProcessor.lookupNotFound d (memProcessor.AdminActionsRun a noSideEffects s).2 = true := by
  cases hdown : s.storageDown <;> cases haudit : s.auditDown <;>
    cases hfind : List.find? (fun x => x.Domain == normalizeDomain d) s.silences <;>
    simp [Processor.lookupNotFound, memProcessor, memGet, memRun, noSideEffects, hdown,
      haudit, hfind, GoError.Is] at h ⊢

/-- C8: for an existing record `r` found by id, over a store in which a
successful delete by domain makes the lookup by that domain report not-found
(and which the identifier generator and the action runner leave alone):
`deleteDomainSilence` projects `r` first, and when the projection fails it
deletes nothing and runs no action; otherwise its next call deletes by `r.Domain`,
the only write; and on success it returns the projection made before the
deletion, after which the lookup by `r.Domain` reports not-found. -/
theorem delete_projects_before_deleting_by_domain (p : Processor σ π) (adminAcct : Account)
    (domainSilenceID : String) (w : World σ) (r : DomainSilence) (s1 : σ)
    (hget : p.GetDomainSilenceByID domainSilenceID w.state = (.ok r, s1))
    (hstore : ∀ d s, (p.DeleteDomainSilence d s).1 = none →
      p.lookupNotFound d (p.DeleteDomainSilence d s).2 = true)
    (hids : ∀ d s, p.lookupNotFound d s = true → p.lookupNotFound d (p.NewULID s).2 = true)
    (hrunner : ∀ d a s, p.lookupNotFound d s = true →
      p.lookupNotFound d (p.AdminActionsRun a noSideEffects s).2 = true) :
    (∀ (e : WithCode) (s2 : σ), p.apiDomainPerm r false s1 = (.error e, s2) →
      deleteDomainSilence p adminAcct domainSilenceID w
        = ((none, "", some e),
           { state := s2
             calls := w.calls ++ [Call.GetDomainSilenceByID domainSilenceID,
               Call.apiDomainPerm r false] }))
    ∧ (∀ (api : π) (s2 : σ), p.apiDomainPerm r false s1 = (.ok api, s2) →
      ∃ rest : List Call,
        (deleteDomainSilence p adminAcct domainSilenceID w).2.calls
          = w.calls ++ [Call.GetDomainSilenceByID domainSilenceID, Call.apiDomainPerm r false,
              Call.DeleteDomainSilence r.Domain] ++ rest
        ∧ ∀ c ∈ rest, c.isStoreWrite = false)
    ∧ (∀ (api : π) (s2 s3 s4 : σ), p.apiDomainPerm r false s1 = (.ok api, s2) →
      p.DeleteDomainSilence r.Domain s2 = (none, s3) →
      p.AdminActionsRun
          { ID := (p.NewULID s3).1
            TargetCategory := AdminActionCategory.AdminActionCategoryDomain
            TargetID := r.Domain
            Type_ := AdminActionType.AdminActionUnsilence
            AccountID := adminAcct.ID } noSideEffects (p.NewULID s3).2 = (none, s4) →
      deleteDomainSilence p adminAcct domainSilenceID w
        = ((some api, (p.NewULID s3).1, none),
           { state := s4
             calls := w.calls ++ [Call.GetDomainSilenceByID domainSilenceID,
               Call.apiDomainPerm r false, Call.DeleteDomainSilence r.Domain, Call.NewULID,
               Call.AdminActionsRun
                 { ID := (p.NewULID s3).1
                   TargetCategory := AdminActionCategory.AdminActionCategoryDomain
                   TargetID := r.Domain
                   Type_ := AdminActionType.AdminActionUnsilence
                   AccountID := adminAcct.ID }] })
      ∧ p.lookupNotFound r.Domain s4 = true) := by
  refine ⟨?_, ?_, ?_⟩
  · intro e s2 hapi
    simp [deleteDomainSilence, Processor.dbGetDomainSilenceByID, Processor.apiDomainPermission,
      hget, hapi]
  · intro api s2 hapi
    simp only [deleteDomainSilence, Processor.dbGetDomainSilenceByID,
      Processor.apiDomainPermission, Processor.dbDeleteDomainSilence, Processor.idNewULID,
      Processor.adminActionsRun, hget, hapi]
    rcases hdel : p.DeleteDomainSilence r.Domain s2 with ⟨_ | e, s3⟩
    · rcases hrun : p.AdminActionsRun
          { ID := (p.NewULID s3).1
            TargetCategory := AdminActionCategory.AdminActionCategoryDomain
            TargetID := r.Domain
            Type_ := AdminActionType.AdminActionUnsilence
            AccountID := adminAcct.ID } noSideEffects (p.NewULID s3).2 with ⟨_ | e, s4⟩
      · exact ⟨[Call.NewULID, Call.AdminActionsRun
          { ID := (p.NewULID s3).1
            TargetCategory := AdminActionCategory.AdminActionCategoryDomain
            TargetID := r.Domain
            Type_ := AdminActionType.AdminActionUnsilence
            AccountID := adminAcct.ID }], by simp [hrun], by simp [Call.isStoreWrite]⟩
      · exact ⟨[Call.NewULID, Call.AdminActionsRun
          { ID := (p.NewULID s3).1
            TargetCategory := AdminActionCategory.AdminActionCategoryDomain
            TargetID := r.Domain
            Type_ := AdminActionType.AdminActionUnsilence
            AccountID := adminAcct.ID }], by simp [hrun], by simp [Call.isStoreWrite]⟩
    · exact ⟨[], by simp, by simp⟩
  · intro api s2 s3 s4 hapi hdel hrun
    refine ⟨?_, ?_⟩
    · simp [deleteDomainSilence, Processor.dbGetDomainSilenceByID,
        Processor.apiDomainPermission, Processor.dbDeleteDomainSilence, Processor.idNewULID,
        Processor.adminActionsRun, hget, hapi, hdel, hrun]
    · have h3 : p.lookupNotFound r.Domain s3 = true := by
        have h := hstore r.Domain s2 (by rw [hdel])
        rwa [hdel] at h
      have h4 := hrunner r.Domain
          { ID := (p.NewULID s3).1
            TargetCategory := AdminActionCategory.AdminActionCategoryDomain
            TargetID := r.Domain
            Type_ := AdminActionType.AdminActionUnsilence
            AccountID := adminAcct.ID } (p.NewULID s3).2 (hids r.Domain s3 h3)
      rwa [hrun] at h4

/-- Witness of C8 on the in-memory collaborators: deleting `silence1` by its id
returns its projection, and `bad.example` is then no longer found. -/
theorem delete_projects_before_deleting_by_domain_witness :
    memProcessor.GetDomainSilenceByID "01SILENCE" (World.start state1).state
        = (.ok silence1, state1)
    ∧ (deleteDomainSilence memProcessor admin1 "01SILENCE" (World.start state1)).1
        = (some { Domain := "***********", Obfuscate := true, PrivateComment := "secret",
                  PublicComment := "spam", SubscriptionID := "01SUB", CreatedBy := "01OTHER" },
           "0", none)
    ∧ memProcessor.lookupNotFound "bad.example"
        (deleteDomainSilence memProcessor admin1 "01SILENCE" (World.start state1)).2.state
        = true := by
  have h := (delete_projects_before_deleting_by_domain memProcessor admin1 "01SILENCE"
    (World.start state1) silence1 state1 rfl memDelete_lookupNotFound
    memNewULID_lookupNotFound memRun_lookupNotFound).2.2 _ _ _ _ rfl rfl rfl
  refine ⟨rfl, ?_, ?_⟩
  · rw [h.1]
    decide
  · rw [h.1]
    exact h.2

/-- The in-memory identifier generator never issues the empty string. -/
theorem memNewULID_ne_empty (s : MemState) : (memProcessor.NewULID s).1 ≠ "" := by
  intro h
  have hdata := congrArg String.data h
  simp [memProcessor, memNewULID] at hdata

/-- C9: with an identifier generator that never issues the empty string, every
failing call of `createDomainSilence` returns no projection, and its action
identifier is non-empty exactly when an action was handed to the runner. A lookup
failure other than not-found gives an Internal error after the lookup alone; an
insert failure gives an Internal error with no action run and the empty action
identifier; a runner failure gives the action's identifier and the runner's
error. -/
theorem create_failure_results (p : Processor σ π) (adminAcct : Account)
    (domain : String) (obfuscate : Bool) (publicComment privateComment subscriptionID : String)
    (w : World σ)
    (hids : ∀ s, (p.NewULID s).1 ≠ "")
    (hfail : (createDomainSilence p adminAcct domain obfuscate publicComment privateComment
        subscriptionID w).1.2.2 ≠ none) :
    (createDomainSilence p adminAcct domain obfuscate publicComment privateComment
        subscriptionID w).1.1 = none
    ∧ ((createDomainSilence p adminAcct domain obfuscate publicComment privateComment
          subscriptionID w).1.2.1 ≠ ""
        ↔ ((createDomainSilence p adminAcct domain obfuscate publicComment privateComment
          subscriptionID w).2.calls.drop w.calls.length).any Call.isRun = true)
    ∧ (∀ (err : GoError) (s1 : σ), p.GetDomainSilence domain w.state = (.error err, s1) →
        err.Is GoError.ErrNoEntries = false →
        createDomainSilence p adminAcct domain obfuscate publicComment privateComment
            subscriptionID w
          = ((none, "", some (NewErrorInternalError
                (Newf ("db error getting domain silence " ++ domain) err))),
             { state := s1, calls := w.calls ++ [Call.GetDomainSilence domain] }))
    ∧ (∀ (err err2 : GoError) (left : DomainSilence) (s1 s3 : σ),
        p.GetDomainSilence domain w.state = (.error err, s1) →
        err.Is GoError.ErrNoEntries = true →
        p.PutDomainSilence
          { ID := (p.NewULID s1).1, CreatedAt := 0, UpdatedAt := 0, Domain := domain,
            CreatedByAccountID := adminAcct.ID, CreatedByAccount := none,
            PrivateComment := p.StripHTMLFromText privateComment,
            PublicComment := p.StripHTMLFromText publicComment,
            Obfuscate := some obfuscate, SubscriptionID := subscriptionID }
          (p.NewULID s1).2 = ((left, some err2), s3) →
        (createDomainSilence p adminAcct domain obfuscate publicComment privateComment
            subscriptionID w).1
          = (none, "", some (NewErrorInternalError
                (Newf ("db error putting domain silence " ++ domain) err2)))
        ∧ ((createDomainSilence p adminAcct domain obfuscate publicComment privateComment
            subscriptionID w).2.calls.drop w.calls.length).any Call.isRun = false)
    ∧ (∀ (r : DomainSilence) (s1 s4 : σ) (e : WithCode),
        p.GetDomainSilence domain w.state = (.ok r, s1) →
        p.AdminActionsRun
          { ID := (p.NewULID s1).1
            TargetCategory := AdminActionCategory.AdminActionCategoryDomain
            TargetID := r.Domain
            Type_ := AdminActionType.AdminActionSilence
            AccountID := adminAcct.ID } noSideEffects (p.NewULID s1).2 = (some e, s4) →
        (createDomainSilence p adminAcct domain obfuscate publicComment privateComment
            subscriptionID w).1 = (none, (p.NewULID s1).1, some e))
    ∧ (∀ (err : GoError) (stored : DomainSilence) (s1 s3 s4 : σ) (e : WithCode),
        p.GetDomainSilence domain w.state = (.error err, s1) →
        err.Is GoError.ErrNoEntries = true →
        p.PutDomainSilence
          { ID := (p.NewULID s1).1, CreatedAt := 0, UpdatedAt := 0, Domain := domain,
            CreatedByAccountID := adminAcct.ID, CreatedByAccount := none,
            PrivateComment := p.StripHTMLFromText privateComment,
            PublicComment := p.StripHTMLFromText publicComment,
            Obfuscate := some obfuscate, SubscriptionID := subscriptionID }
          (p.NewULID s1).2 = ((stored, none), s3) →
        p.AdminActionsRun
          { ID := (p.NewULID s3).1
            TargetCategory := AdminActionCategory.AdminActionCategoryDomain
            TargetID := stored.Domain
            Type_ := AdminActionType.AdminActionSilence
            AccountID := adminAcct.ID } noSideEffects (p.NewULID s3).2 = (some e, s4) →
        (createDomainSilence p adminAcct domain obfuscate publicComment privateComment
            subscriptionID w).1 = (none, (p.NewULID s3).1, some e)) := by
  refine ⟨?_, ?_, ?_, ?_, ?_, ?_⟩
  · rcases hget : p.GetDomainSilence domain w.state with ⟨err | r, s1⟩
    · cases hnf : err.Is GoError.ErrNoEntries
      · simp [createDomainSilence, Processor.dbGetDomainSilence, hget, hnf]
      · rcases hput : p.PutDomainSilence
          { ID := (p.NewULID s1).1, CreatedAt := 0, UpdatedAt := 0, Domain := domain,
            CreatedByAccountID := adminAcct.ID, CreatedByAccount := none,
            PrivateComment := p.StripHTMLFromText privateComment,
            PublicComment := p.StripHTMLFromText publicComment,
            Obfuscate := some obfuscate, SubscriptionID := subscriptionID }
          (p.NewULID s1).2 with ⟨⟨stored, _ | err2⟩, s3⟩
        · rcases hrun : p.AdminActionsRun
            { ID := (p.NewULID s3).1
              TargetCategory := AdminActionCategory.AdminActionCategoryDomain
              TargetID := stored.Domain
              Type_ := AdminActionType.AdminActionSilence
              AccountID := adminAcct.ID } noSideEffects (p.NewULID s3).2 with ⟨_ | e, s4⟩
          · rcases hapi : p.apiDomainPerm stored false s4 with ⟨e | api, s5⟩
            · simp [createDomainSilence, Processor.dbGetDomainSilence, Processor.idNewULID,
                Processor.dbPutDomainSilence, Processor.adminActionsRun,
                Processor.apiDomainPermission, hget, hnf, hput, hrun, hapi]
            · simp [createDomainSilence, Processor.dbGetDomainSilence, Processor.idNewULID,
                Processor.dbPutDomainSilence, Processor.adminActionsRun,
                Processor.apiDomainPermission, hget, hnf, hput, hrun, hapi] at hfail
          · simp [createDomainSilence, Processor.dbGetDomainSilence, Processor.idNewULID,
              Processor.dbPutDomainSilence, Processor.adminActionsRun, hget, hnf, hput, hrun]
        · simp [createDomainSilence, Processor.dbGetDomainSilence, Processor.idNewULID,
            Processor.dbPutDomainSilence, hget, hnf, hput]
    · rcases hrun : p.AdminActionsRun
        { ID := (p.NewULID s1).1
          TargetCategory := AdminActionCategory.AdminActionCategoryDomain
          TargetID := r.Domain
          Type_ := AdminActionType.AdminActionSilence
          AccountID := adminAcct.ID } noSideEffects (p.NewULID s1).2 with ⟨_ | e, s4⟩
      · rcases hapi : p.apiDomainPerm r false s4 with ⟨e | api, s5⟩
        · simp [createDomainSilence, Processor.dbGetDomainSilence, Processor.idNewULID,
            Processor.adminActionsRun, Processor.apiDomainPermission, hget, hrun, hapi]
        · simp [createDomainSilence, Processor.dbGetDomainSilence, Processor.idNewULID,
            Processor.adminActionsRun, Processor.apiDomainPermission, hget, hrun, hapi] at hfail
      · simp [createDomainSilence, Processor.dbGetDomainSilence, Processor.idNewULID,
          Processor.adminActionsRun, hget, hrun]
  · rcases hget : p.GetDomainSilence domain w.state with ⟨err | r, s1⟩
    · cases hnf : err.Is GoError.ErrNoEntries
      · simp [createDomainSilence, Processor.dbGetDomainSilence, hget, hnf, Call.isRun]
      · rcases hput : p.PutDomainSilence
          { ID := (p.NewULID s1).1, CreatedAt := 0, UpdatedAt := 0, Domain := domain,
            CreatedByAccountID := adminAcct.ID, CreatedByAccount := none,
            PrivateComment := p.StripHTMLFromText privateComment,
            PublicComment := p.StripHTMLFromText publicComment,
            Obfuscate := some obfuscate, SubscriptionID := subscriptionID }
          (p.NewULID s1).2 with ⟨⟨stored, _ | err2⟩, s3⟩
        · rcases hrun : p.AdminActionsRun
            { ID := (p.NewULID s3).1
              TargetCategory := AdminActionCategory.AdminActionCategoryDomain
              TargetID := stored.Domain
              Type_ := AdminActionType.AdminActionSilence
              AccountID := adminAcct.ID } noSideEffects (p.NewULID s3).2 with ⟨_ | e, s4⟩
          · rcases hapi : p.apiDomainPerm stored false s4 with ⟨e | api, s5⟩ <;>
            simp [createDomainSilence, Processor.dbGetDomainSilence, Processor.idNewULID,
                Processor.dbPutDomainSilence, Processor.adminActionsRun,
                Processor.apiDomainPermission, hget, hnf, hput, hrun, hapi, hids, Call.isRun]
          · simp [createDomainSilence, Processor.dbGetDomainSilence, Processor.idNewULID,
              Processor.dbPutDomainSilence, Processor.adminActionsRun, hget, hnf, hput, hrun,
              hids, Call.isRun]
        · simp [createDomainSilence, Processor.dbGetDomainSilence, Processor.idNewULID,
            Processor.dbPutDomainSilence, hget, hnf, hput, Call.isRun]
    · rcases hrun : p.AdminActionsRun
        { ID := (p.NewULID s1).1
          TargetCategory := AdminActionCategory.AdminActionCategoryDomain
          TargetID := r.Domain
          Type_ := AdminActionType.AdminActionSilence
          AccountID := adminAcct.ID } noSideEffects (p.NewULID s1).2 with ⟨_ | e, s4⟩
      · rcases hapi : p.apiDomainPerm r false s4 with ⟨e | api, s5⟩ <;>
        simp [createDomainSilence, Processor.dbGetDomainSilence, Processor.idNewULID,
            Processor.adminActionsRun, Processor.apiDomainPermission, hget, hrun, hapi, hids,
            Call.isRun]
      · simp [createDomainSilence, Processor.dbGetDomainSilence, Processor.idNewULID,
          Processor.adminActionsRun, hget, hrun, hids, Call.isRun]
  · intro err s1 hget hnf
    simp [createDomainSilence, Processor.dbGetDomainSilence, hget, hnf]
  · intro err err2 left s1 s3 hget hnf hput
    simp [createDomainSilence, Processor.dbGetDomainSilence, Processor.idNewULID,
      Processor.dbPutDomainSilence, hget, hnf, hput, Call.isRun]
  · intro r s1 s4 e hget hrun
    simp [createDomainSilence, Processor.dbGetDomainSilence, Processor.idNewULID,
      Processor.adminActionsRun, hget, hrun]
  · intro err stored s1 s3 s4 e hget hnf hput hrun
    simp [createDomainSilence, Processor.dbGetDomainSilence, Processor.idNewULID,
      Processor.dbPutDomainSilence, Processor.adminActionsRun, hget, hnf, hput, hrun]

/-- Witness of C9 on the in-memory collaborators: with the audit trail
unavailable, creating a silence of a new domain fails in the runner; the record
is stored, no projection is returned and the action's identifier is. -/
theorem create_failure_results_witness :
    (createDomainSilence memProcessor admin1 "bad.example" false "spam" "" ""
        (World.start { emptyState with auditDown := true })).1.2.2 ≠ none
    ∧ (createDomainSilence memProcessor admin1 "bad.example" false "spam" "" ""
        (World.start { emptyState with auditDown := true })).1
        = (none, "0Z",
           some (NewErrorInternalError (GoError.other "db error putting admin action"))) := by
  have h := (create_failure_results memProcessor admin1 "bad.example" false "spam" "" ""
    (World.start { emptyState with auditDown := true }) memNewULID_ne_empty
    (by decide)).2.2.2.2.2 GoError.ErrNoEntries _ _ _ _ _ rfl rfl rfl rfl
  exact ⟨by decide, h.trans (by decide)⟩

/-- C10: a record is an orphan exactly when its subscription id is the empty
string, whatever its other fields are; so the record that `createDomainSilence`
inserts is an orphan exactly when the subscription id passed in is empty. -/
theorem isOrphan_iff_subscriptionID_empty :
    (∀ r : DomainSilence, r.IsOrphan = true ↔ r.SubscriptionID = "")
    ∧ (∀ r r2 : DomainSilence, r.SubscriptionID = r2.SubscriptionID → r.IsOrphan = r2.IsOrphan)
    ∧ (∀ (τ ρ : Type) (p : Processor τ ρ) (adminAcct : Account) (domain : String)
        (obfuscate : Bool) (publicComment privateComment subscriptionID : String)
        (w : World τ) (inserted : DomainSilence),
        Call.PutDomainSilence inserted ∈
          (createDomainSilence p adminAcct domain obfuscate publicComment privateComment
            subscriptionID w).2.calls.drop w.calls.length →
        (inserted.IsOrphan = true ↔ subscriptionID = "")) := by
  refine ⟨?_, ?_, ?_⟩
  · intro r
    simp [DomainSilence.IsOrphan]
  · intro r r2 h
    simp [DomainSilence.IsOrphan, h]
  · intro τ ρ p adminAcct domain obfuscate publicComment privateComment subscriptionID w
      inserted hmem
    have hsub : inserted.SubscriptionID = subscriptionID := by
      rcases hget : p.GetDomainSilence domain w.state with ⟨err | r, s1⟩
      · cases hnf : err.Is GoError.ErrNoEntries
        · simp [createDomainSilence, Processor.dbGetDomainSilence, hget, hnf] at hmem
        · rcases hput : p.PutDomainSilence
            { ID := (p.NewULID s1).1, CreatedAt := 0, UpdatedAt := 0, Domain := domain,
              CreatedByAccountID := adminAcct.ID, CreatedByAccount := none,
              PrivateComment := p.StripHTMLFromText privateComment,
              PublicComment := p.StripHTMLFromText publicComment,
              Obfuscate := some obfuscate, SubscriptionID := subscriptionID }
            (p.NewULID s1).2 with ⟨⟨stored, _ | err2⟩, s3⟩
          · rcases hrun : p.AdminActionsRun
              { ID := (p.NewULID s3).1
                TargetCategory := AdminActionCategory.AdminActionCategoryDomain
                TargetID := stored.Domain
                Type_ := AdminActionType.AdminActionSilence
                AccountID := adminAcct.ID } noSideEffects (p.NewULID s3).2 with ⟨_ | e, s4⟩
            · rcases hapi : p.apiDomainPerm stored false s4 with ⟨e | api, s5⟩ <;>
              simp [createDomainSilence, Processor.dbGetDomainSilence, Processor.idNewULID,
                  Processor.dbPutDomainSilence, Processor.adminActionsRun,
                  Processor.apiDomainPermission, hget, hnf, hput, hrun, hapi] at hmem <;>
              simp [hmem]
            · simp [createDomainSilence, Processor.dbGetDomainSilence, Processor.idNewULID,
                Processor.dbPutDomainSilence, Processor.adminActionsRun, hget, hnf, hput,
                hrun] at hmem
              simp [hmem]
          · simp [createDomainSilence, Processor.dbGetDomainSilence, Processor.idNewULID,
              Processor.dbPutDomainSilence, hget, hnf, hput] at hmem
            simp [hmem]
      · rcases hrun : p.AdminActionsRun
          { ID := (p.NewULID s1).1
            TargetCategory := AdminActionCategory.AdminActionCategoryDomain
            TargetID := r.Domain
            Type_ := AdminActionType.AdminActionSilence
            AccountID := adminAcct.ID } noSideEffects (p.NewULID s1).2 with ⟨_ | e, s4⟩
        · rcases hapi : p.apiDomainPerm r false s4 with ⟨e | api, s5⟩ <;>
          simp [createDomainSilence, Processor.dbGetDomainSilence, Processor.idNewULID,
              Processor.adminActionsRun, Processor.apiDomainPermission, hget, hrun,
              hapi] at hmem
        · simp [createDomainSilence, Processor.dbGetDomainSilence, Processor.idNewULID,
            Processor.adminActionsRun, hget, hrun] at hmem
    simp [DomainSilence.IsOrphan, hsub]

/-- Witness of C10: the record of the specification's scenario, built with an
empty subscription id, is an orphan, and `silence1`, which carries a
subscription id, is not. -/
theorem isOrphan_iff_subscriptionID_empty_witness :
    DomainSilence.IsOrphan { silence1 with SubscriptionID := "" } = true
    ∧ ¬ silence1.IsOrphan = true :=
  ⟨(isOrphan_iff_subscriptionID_empty.1 { silence1 with SubscriptionID := "" }).2 rfl,
   fun h => absurd ((isOrphan_iff_subscriptionID_empty.1 silence1).1 h) (by decide)⟩

end GoToSocial
